import Mathlib

/-!
Verification of `src/create_video.py` (`make_video`): a script that composes
a static image and an audio track into a video sized to the audio's duration.

The script is shallowly embedded as a pure function from an environment
(which paths exist on disk, the duration the media library probes for the
audio, and whether each delegated media-library call succeeds) to a result
(`Except PyErr Unit`, mirroring normal return vs. a re-raised Python
exception) together with a trace of observable events: `print` calls,
delegated media-library calls with their arguments, handle acquisitions,
and handle releases (`close`).
-/

namespace CreateVideo

/-- Python exceptions that `make_video` can raise: `FileNotFoundError` and
`ValueError` raised by the script itself, and opaque exceptions surfaced by
the delegated media library (moviepy). -/
inductive PyErr where
  | FileNotFoundError (msg : String)
  | ValueError (msg : String)
  | LibraryError (msg : String)
deriving DecidableEq, Repr

/-- The message attached to an exception (what `str(e)` returns). -/
def PyErr.message : PyErr → String
  | .FileNotFoundError m => m
  | .ValueError m => m
  | .LibraryError m => m

/-- Media handles are identified by small numbers: at most one audio clip,
one image clip and one combined clip exist per invocation. -/
abbrev Handle := Nat

@[simp] def audioHandleId : Handle := 0
@[simp] def imageHandleId : Handle := 1
@[simp] def finalHandleId : Handle := 2

/-- Observable events of one execution of `make_video`:
`print` output, each delegated media-library call with its arguments,
successful acquisition of a handle, and release (`close`) of a handle.
`printDuration` stands for the `print(f"Audio duration: {duration:.2f} ...")`
line and `printTraceback` for `traceback.print_exc()`. -/
inductive Event where
  | print (s : String)
  | printDuration (d : ℚ)
  | printTraceback
  | libAudioFileClip (path : String)
  | libImageClip (path : String) (duration : ℚ)
  | libWithAudio (img aud : Handle)
  | libWriteVideofile (out : String) (fps : ℤ) (codec audio_codec logger temp : String)
  | close (h : Handle)
deriving DecidableEq, Repr

/-- The environment an invocation runs in: which paths exist
(`os.path.exists`), the `duration` attribute moviepy reports for the audio
clip (`none` models Python `None`), and whether each delegated
media-library call succeeds or raises. -/
structure Env where
  fsExists : String → Bool
  audioDuration : Option ℚ
  audioOpenOk : Bool
  imageOpenOk : Bool
  withAudioOk : Bool
  writeOk : Bool

/-- Model of `posixpath.dirname`: everything up to the last `'/'`,
with trailing slashes stripped unless the head consists only of slashes. -/
def os_path_dirname (p : String) : String :=
  let head := (p.data.reverse.dropWhile (fun c => c ≠ '/')).reverse
  if head ≠ [] ∧ ¬ head.all (fun c => c = '/') then
    ⟨(head.reverse.dropWhile (fun c => c = '/')).reverse⟩
  else ⟨head⟩

/-- Whether a path starts with the separator `'/'`. -/
def startsWithSlash (s : String) : Bool := s.data.head? = some '/'

/-- Whether a path ends with the separator `'/'`. -/
def endsWithSlash (s : String) : Bool := s.data.getLast? = some '/'

/-- Model of `posixpath.join` for two components: an absolute second
component replaces the first; otherwise a `'/'` separator is inserted
unless the first component is empty or already ends in `'/'`. -/
def os_path_join (a b : String) : String :=
  if startsWithSlash b then b
  else if a = "" ∨ endsWithSlash a then a ++ b
  else a ++ "/" ++ b

/-- The temporary audio file path `make_video` computes:
`os.path.join(os.path.dirname(output_path), "temp_processing_audio.mp4")`. -/
def temp_audiofile_path (output_path : String) : String :=
  os_path_join (os_path_dirname output_path) "temp_processing_audio.mp4"

/-- The body of the `try:` block of `make_video`. Returns the outcome of
the body (normal completion or the exception it raised), the events it
emitted, and the state of the three handle variables
`audio_clip` / `image_clip` / `final_clip` (`none` models Python `None`). -/
def tryBody (env : Env) (image_path audio_path output_path : String)
    (fps : ℤ) :
    Except PyErr Unit × List Event × (Option Handle × Option Handle × Option Handle) :=
  let ev0 : List Event :=
    [.print "🎬 Starting video creation...",
     .print ("🖼️ Image: " ++ image_path),
     .print ("🎵 Audio: " ++ audio_path),
     .print ("🎞️ Output: " ++ output_path),
     .print ("⏱️ FPS: " ++ toString fps)]
  if env.fsExists image_path = false then
    (.error (.FileNotFoundError ("Image file not found: " ++ image_path)),
     ev0, (none, none, none))
  else if env.fsExists audio_path = false then
    (.error (.FileNotFoundError ("Audio file not found: " ++ audio_path)),
     ev0, (none, none, none))
  else
    let ev1 := ev0 ++ [.print "⏳ Loading audio...", .libAudioFileClip audio_path]
    if env.audioOpenOk = false then
      (.error (.LibraryError "AudioFileClip failed"), ev1, (none, none, none))
    else
      let audio_clip := some audioHandleId
      match env.audioDuration with
      | none =>
        (.error (.ValueError "Audio duration is invalid or zero. Ensure the input audio file has a valid audio track and is not silent/empty."),
         ev1, (audio_clip, none, none))
      | some d =>
        if d ≤ 0 then
          (.error (.ValueError "Audio duration is invalid or zero. Ensure the input audio file has a valid audio track and is not silent/empty."),
           ev1, (audio_clip, none, none))
        else
          let ev2 := ev1 ++ [.printDuration d,
            .print "🖼️ Processing image...", .libImageClip image_path d]
          if env.imageOpenOk = false then
            (.error (.LibraryError "ImageClip failed"), ev2, (audio_clip, none, none))
          else
            let image_clip := some imageHandleId
            let ev3 := ev2 ++ [.print "➕ Combining image and audio...",
              .libWithAudio imageHandleId audioHandleId]
            if env.withAudioOk = false then
              (.error (.LibraryError "with_audio failed"), ev3, (audio_clip, image_clip, none))
            else
              let final_clip := some finalHandleId
              let temp := temp_audiofile_path output_path
              let ev4 := ev3 ++
                [.print ("🛠️  Using temporary audio file location: " ++ temp),
                 .print ("💾 Writing video to " ++ output_path ++ "..."),
                 .libWriteVideofile output_path fps "libx264" "aac" "bar" temp]
              if env.writeOk = false then
                (.error (.LibraryError "write_videofile failed"), ev4,
                 (audio_clip, image_clip, final_clip))
              else
                (.ok (),
                 ev4 ++ [.print ("✅ Video '" ++ output_path ++ "' created successfully!")],
                 (audio_clip, image_clip, final_clip))

/-- The `finally:` block: close each clip variable that is not `None`,
in the order `audio_clip`, `image_clip`, `final_clip`. -/
def finallyCloses : Option Handle × Option Handle × Option Handle → List Event
  | (a, i, f) =>
    (match a with | some h => [Event.close h] | none => []) ++
    (match i with | some h => [Event.close h] | none => []) ++
    (match f with | some h => [Event.close h] | none => [])

/-- `make_video(image_path, audio_path, output_path, fps=24)`:
run the `try:` body; on an exception, print the error message and the
traceback (`except` clause) and re-raise; in all cases run the `finally:`
block releasing exactly the handles that were set. Returns the overall
outcome and the full event trace. -/
def make_video (env : Env) (image_path audio_path output_path : String)
    (fps : ℤ := 24) : Except PyErr Unit × List Event :=
  match tryBody env image_path audio_path output_path fps with
  | (.ok (), evs, hs) => (.ok (), evs ++ finallyCloses hs)
  | (.error e, evs, hs) =>
    (.error e,
     evs ++ [.print ("❌ Error creating video: " ++ e.message), .printTraceback]
         ++ finallyCloses hs)

/-- Whether an event is a call into the delegated media library. -/
def Event.isMediaCall : Event → Bool
  | .libAudioFileClip _ => true
  | .libImageClip _ _ => true
  | .libWithAudio _ _ => true
  | .libWriteVideofile _ _ _ _ _ _ => true
  | .close _ => true
  | _ => false

/-- Whether an event constructs a clip (image clip or combined clip). -/
def Event.isClipConstruction : Event → Bool
  | .libImageClip _ _ => true
  | .libWithAudio _ _ => true
  | _ => false

/-- Whether an event writes the output file. -/
def Event.isWrite : Event → Bool
  | .libWriteVideofile _ _ _ _ _ _ => true
  | _ => false

/-- Whether an event is console output. -/
def Event.isPrint : Event → Bool
  | .print _ => true
  | .printDuration _ => true
  | .printTraceback => true
  | _ => false

/-- Whether an event releases a handle. -/
def Event.isClose : Event → Bool
  | .close _ => true
  | _ => false

/-- Whether an event is the `AudioFileClip` constructor call. -/
def Event.isAudioOpenCall : Event → Bool
  | .libAudioFileClip _ => true
  | _ => false

/-- Whether an event is the `ImageClip` constructor call. -/
def Event.isImageClipCall : Event → Bool
  | .libImageClip _ _ => true
  | _ => false

/-- Whether an event is the `with_audio` call. -/
def Event.isWithAudioCall : Event → Bool
  | .libWithAudio _ _ => true
  | _ => false

/-- The handles that were successfully opened during an execution: the
clip variables of `make_video` that are set (not `None`) when the
`finally:` block runs. -/
def openedHandles (env : Env) (image_path audio_path output_path : String)
    (fps : ℤ) : List Handle :=
  (tryBody env image_path audio_path output_path fps).2.2.1.toList ++
  (tryBody env image_path audio_path output_path fps).2.2.2.1.toList ++
  (tryBody env image_path audio_path output_path fps).2.2.2.2.toList

/-- An environment in which every delegated call succeeds and the audio
probes to 5 seconds. -/
def envAllOk : Env :=
  { fsExists := fun _ => true, audioDuration := some 5,
    audioOpenOk := true, imageOpenOk := true, withAudioOk := true,
    writeOk := true }

/-- An environment in which the path "img.png" does not exist on disk. -/
def envNoImage : Env :=
  { envAllOk with fsExists := fun p => p != "img.png" }

/-- An environment in which the audio probes to duration 0. -/
def envZeroDuration : Env :=
  { envAllOk with audioDuration := some 0 }

/-- An environment in which the `with_audio` call raises. -/
def envWithAudioFails : Env :=
  { envAllOk with withAudioOk := false }

/-- C1: if the image path or the audio path does not exist, `make_video`
raises a `FileNotFoundError` naming the missing path (the image path is
checked first), and the trace contains no media-library call and no write
to the output path: every emitted event is console output. -/
theorem claim_C1 (env : Env) (i a o : String) (fps : ℤ)
    (h : env.fsExists i = false ∨ env.fsExists a = false) :
    (if env.fsExists i = false then
      (make_video env i a o fps).1 =
        .error (.FileNotFoundError ("Image file not found: " ++ i))
    else
      (make_video env i a o fps).1 =
        .error (.FileNotFoundError ("Audio file not found: " ++ a))) ∧
    ∀ e ∈ (make_video env i a o fps).2,
      e.isPrint = true ∧ e.isMediaCall = false ∧ e.isWrite = false := by
  obtain ⟨fs, dur, aOk, iOk, waOk, wrOk⟩ := env
  cases hfi : fs i <;> cases hfa : fs a <;>
    simp_all [make_video, tryBody, finallyCloses, PyErr.message,
      Event.isPrint, Event.isMediaCall, Event.isWrite]

/-- Witness for C1: with "img.png" absent from disk, `make_video` raises
`FileNotFoundError` naming "img.png" and emits only console output. -/
theorem claim_C1_witness :
    (make_video envNoImage "img.png" "aud.mp3" "out.mp4" 24).1 =
      .error (.FileNotFoundError "Image file not found: img.png") ∧
    ∀ e ∈ (make_video envNoImage "img.png" "aud.mp3" "out.mp4" 24).2,
      e.isPrint = true ∧ e.isMediaCall = false ∧ e.isWrite = false := by
  have h := claim_C1 envNoImage "img.png" "aud.mp3" "out.mp4" 24
    (Or.inl (by decide))
  rw [if_pos (by decide)] at h
  exact h

/-- C2: if both inputs exist and the audio opens but its probed duration
is `None`, zero, or negative, `make_video` raises the `ValueError` with
the script's descriptive message, and the trace contains no clip
construction (no `ImageClip`, no `with_audio`) and no write. -/
theorem claim_C2 (env : Env) (i a o : String) (fps : ℤ)
    (hi : env.fsExists i = true) (ha : env.fsExists a = true)
    (hopen : env.audioOpenOk = true)
    (hdur : env.audioDuration = none ∨ ∃ d, env.audioDuration = some d ∧ d ≤ 0) :
    (make_video env i a o fps).1 =
      .error (.ValueError "Audio duration is invalid or zero. Ensure the input audio file has a valid audio track and is not silent/empty.") ∧
    ∀ e ∈ (make_video env i a o fps).2,
      e.isClipConstruction = false ∧ e.isWrite = false := by
  obtain ⟨fs, dur, aOk, iOk, waOk, wrOk⟩ := env
  rcases hdur with hd | ⟨d, hd, hle⟩ <;>
    simp_all [make_video, tryBody, finallyCloses, PyErr.message,
      Event.isClipConstruction, Event.isWrite]

/-- Witness for C2: with an audio that probes to duration 0, `make_video`
raises the `ValueError` and constructs and writes nothing. -/
theorem claim_C2_witness :
    (make_video envZeroDuration "img.png" "aud.mp3" "out.mp4" 24).1 =
      .error (.ValueError "Audio duration is invalid or zero. Ensure the input audio file has a valid audio track and is not silent/empty.") ∧
    ∀ e ∈ (make_video envZeroDuration "img.png" "aud.mp3" "out.mp4" 24).2,
      e.isClipConstruction = false ∧ e.isWrite = false :=
  claim_C2 envZeroDuration "img.png" "aud.mp3" "out.mp4" 24 rfl rfl rfl
    (Or.inr ⟨0, rfl, le_refl 0⟩)

/-- C3: in every execution, normal or raising, a `close` is emitted for a
handle exactly when that handle was successfully opened (its clip variable
is set when the `finally:` block runs); a handle never opened is not
released. -/
theorem claim_C3 (env : Env) (i a o : String) (fps : ℤ) (h : Handle) :
    Event.close h ∈ (make_video env i a o fps).2 ↔
      h ∈ openedHandles env i a o fps := by
  obtain ⟨fs, dur, aOk, iOk, waOk, wrOk⟩ := env
  cases dur with
  | none =>
    cases hfi : fs i <;> cases hfa : fs a <;> cases aOk <;> cases iOk <;>
      cases waOk <;> cases wrOk <;>
      simp_all [make_video, tryBody, openedHandles, finallyCloses,
        PyErr.message]
  | some d =>
    rcases le_or_lt d 0 with hd | hd
    · cases hfi : fs i <;> cases hfa : fs a <;> cases aOk <;> cases iOk <;>
        cases waOk <;> cases wrOk <;>
        simp_all [make_video, tryBody, openedHandles, finallyCloses,
          PyErr.message]
    · have hd' : ¬ d ≤ 0 := not_le.mpr hd
      cases hfi : fs i <;> cases hfa : fs a <;> cases aOk <;> cases iOk <;>
        cases waOk <;> cases wrOk <;>
        simp_all [make_video, tryBody, openedHandles, finallyCloses,
          PyErr.message, if_neg hd']

/-- C6: no handle is ever released twice (the list of `close` events has
no duplicate), and when a failure occurs after the audio handle is opened
but before the combined clip is built (invalid duration, `ImageClip`
failure, or `with_audio` failure), the audio handle is closed exactly
once. -/
theorem claim_C6 :
    (∀ (env : Env) (i a o : String) (fps : ℤ),
      ((make_video env i a o fps).2.filter Event.isClose).Nodup) ∧
    (∀ (env : Env) (i a o : String) (fps : ℤ),
      env.fsExists i = true → env.fsExists a = true →
      env.audioOpenOk = true →
      (env.audioDuration = none ∨ (∃ d, env.audioDuration = some d ∧ d ≤ 0) ∨
        env.imageOpenOk = false ∨ env.withAudioOk = false) →
      ((make_video env i a o fps).2.count (Event.close audioHandleId)) = 1) := by
  constructor
  · intro env i a o fps
    obtain ⟨fs, dur, aOk, iOk, waOk, wrOk⟩ := env
    cases dur with
    | none =>
      cases hfi : fs i <;> cases hfa : fs a <;> cases aOk <;> cases iOk <;>
        cases waOk <;> cases wrOk <;>
        simp_all [make_video, tryBody, finallyCloses, PyErr.message,
          Event.isClose, List.filter_append]
    | some d =>
      rcases le_or_lt d 0 with hd | hd
      · cases hfi : fs i <;> cases hfa : fs a <;> cases aOk <;> cases iOk <;>
          cases waOk <;> cases wrOk <;>
          simp_all [make_video, tryBody, finallyCloses, PyErr.message,
            Event.isClose, List.filter_append]
      · have hd' : ¬ d ≤ 0 := not_le.mpr hd
        cases hfi : fs i <;> cases hfa : fs a <;> cases aOk <;> cases iOk <;>
          cases waOk <;> cases wrOk <;>
          simp_all [make_video, tryBody, finallyCloses, PyErr.message,
            Event.isClose, List.filter_append, if_neg hd']
  · intro env i a o fps hi ha hopen hfail
    obtain ⟨fs, dur, aOk, iOk, waOk, wrOk⟩ := env
    rcases hfail with hd | ⟨d, hd, hle⟩ | hio | hwa <;>
      try subst hd
    · simp_all [make_video, tryBody, finallyCloses, PyErr.message,
        audioHandleId, List.count_append, List.count_cons]
    · simp_all [make_video, tryBody, finallyCloses, PyErr.message,
        audioHandleId, List.count_append, List.count_cons]
    · cases dur with
      | none =>
        simp_all [make_video, tryBody, finallyCloses, PyErr.message,
          audioHandleId, List.count_append, List.count_cons]
      | some d =>
        rcases le_or_lt d 0 with hle | hpos
        · simp_all [make_video, tryBody, finallyCloses, PyErr.message,
            audioHandleId, List.count_append, List.count_cons]
        · have hd' : ¬ d ≤ 0 := not_le.mpr hpos
          simp_all [make_video, tryBody, finallyCloses, PyErr.message,
            audioHandleId, List.count_append, List.count_cons, if_neg hd']
    · cases dur with
      | none =>
        simp_all [make_video, tryBody, finallyCloses, PyErr.message,
          audioHandleId, List.count_append, List.count_cons]
      | some d =>
        rcases le_or_lt d 0 with hle | hpos
        · simp_all [make_video, tryBody, finallyCloses, PyErr.message,
            audioHandleId, List.count_append, List.count_cons]
        · have hd' : ¬ d ≤ 0 := not_le.mpr hpos
          cases iOk <;>
            simp_all [make_video, tryBody, finallyCloses, PyErr.message,
              audioHandleId, List.count_append, List.count_cons, if_neg hd']

/-- Witness for C6: with `with_audio` failing after the audio opened, the
audio handle is closed exactly once. -/
theorem claim_C6_witness :
    ((make_video envWithAudioFails "img.png" "aud.mp3" "out.mp4" 24).2.count
      (Event.close audioHandleId)) = 1 :=
  claim_C6.2 envWithAudioFails "img.png" "aud.mp3" "out.mp4" 24 rfl rfl rfl
    (Or.inr (Or.inr (Or.inr rfl)))

/-- C4: on every successful run, the audio probed to a positive duration
`d`, the image clip was constructed from the input image with its display
duration set to `d` (so the composed clip spans exactly the audio's
duration showing the static image), and the audio handle was attached to
the image clip; moreover the only `ImageClip` construction in the run used
duration `d`. -/
theorem claim_C4 (env : Env) (i a o : String) (fps : ℤ)
    (hok : (make_video env i a o fps).1 = .ok ()) :
    ∃ d : ℚ, env.audioDuration = some d ∧ 0 < d ∧
      Event.libImageClip i d ∈ (make_video env i a o fps).2 ∧
      Event.libWithAudio imageHandleId audioHandleId ∈ (make_video env i a o fps).2 ∧
      ∀ p d', Event.libImageClip p d' ∈ (make_video env i a o fps).2 →
        p = i ∧ d' = d := by
  obtain ⟨fs, dur, aOk, iOk, waOk, wrOk⟩ := env
  cases dur with
  | none =>
    cases hfi : fs i <;> cases hfa : fs a <;> cases aOk <;> cases iOk <;>
      cases waOk <;> cases wrOk <;>
      simp_all [make_video, tryBody, finallyCloses, PyErr.message]
  | some d =>
    rcases le_or_lt d 0 with hd | hd
    · cases hfi : fs i <;> cases hfa : fs a <;> cases aOk <;> cases iOk <;>
        cases waOk <;> cases wrOk <;>
        simp_all [make_video, tryBody, finallyCloses, PyErr.message]
    · have hd' : ¬ d ≤ 0 := not_le.mpr hd
      refine ⟨d, rfl, hd, ?_⟩
      cases hfi : fs i <;> cases hfa : fs a <;> cases aOk <;> cases iOk <;>
        cases waOk <;> cases wrOk <;>
        simp_all [make_video, tryBody, finallyCloses, PyErr.message,
          if_neg hd']

/-- Witness for C4: in the all-succeeding environment with audio duration
5, the successful run built the image clip with duration 5 and attached
the audio. -/
theorem claim_C4_witness :
    envAllOk.audioDuration = some (5 : ℚ) ∧ (0 : ℚ) < 5 ∧
    Event.libImageClip "img.png" 5 ∈
      (make_video envAllOk "img.png" "aud.mp3" "out.mp4" 24).2 ∧
    Event.libWithAudio imageHandleId audioHandleId ∈
      (make_video envAllOk "img.png" "aud.mp3" "out.mp4" 24).2 := by
  obtain ⟨d, hd, hpos, him, hwa, huniq⟩ :=
    claim_C4 envAllOk "img.png" "aud.mp3" "out.mp4" 24 rfl
  have hd5 : (5 : ℚ) = d := by simpa [envAllOk] using hd
  subst hd5
  exact ⟨rfl, hpos, him, hwa⟩

/-- The outcome of `make_video` is exactly the outcome of its `try:`
body: the `except` clause re-raises the same exception and the `finally:`
block does not alter the outcome. -/
theorem make_video_fst_eq (env : Env) (i a o : String) (fps : ℤ) :
    (make_video env i a o fps).1 = (tryBody env i a o fps).1 := by
  unfold make_video
  rcases htb : tryBody env i a o fps with ⟨r, evs, hs⟩
  cases r with
  | ok v => cases v; simp
  | error e => simp

/-- Whenever `make_video` ends in an error, the trace contains the
error-message print and the traceback print of the `except` clause. -/
theorem make_video_error_mem (env : Env) (i a o : String) (fps : ℤ)
    (e : PyErr) (he : (make_video env i a o fps).1 = .error e) :
    Event.print ("❌ Error creating video: " ++ e.message) ∈
      (make_video env i a o fps).2 ∧
    Event.printTraceback ∈ (make_video env i a o fps).2 := by
  unfold make_video at he ⊢
  rcases htb : tryBody env i a o fps with ⟨r, evs, hs⟩
  rw [htb] at he
  cases r with
  | ok v => cases v; simp at he
  | error e' =>
    simp at he
    subst he
    simp

set_option maxHeartbeats 1600000 in
/-- C5: every exception raised inside the body is caught at the top level
and re-raised unchanged (`make_video`'s outcome is exactly the body's
outcome, so no error is swallowed); whenever the outcome is an error, the
trace contains the error-message print and the traceback print; and no
delegated call is retried: each of the four media-library calls occurs at
most once in the trace. -/
theorem claim_C5 (env : Env) (i a o : String) (fps : ℤ) :
    (make_video env i a o fps).1 = (tryBody env i a o fps).1 ∧
    (∀ e : PyErr, (make_video env i a o fps).1 = .error e →
      Event.print ("❌ Error creating video: " ++ e.message) ∈
        (make_video env i a o fps).2 ∧
      Event.printTraceback ∈ (make_video env i a o fps).2) ∧
    ((make_video env i a o fps).2.filter Event.isAudioOpenCall).length ≤ 1 ∧
    ((make_video env i a o fps).2.filter Event.isImageClipCall).length ≤ 1 ∧
    ((make_video env i a o fps).2.filter Event.isWithAudioCall).length ≤ 1 ∧
    ((make_video env i a o fps).2.filter Event.isWrite).length ≤ 1 := by
  refine ⟨make_video_fst_eq env i a o fps,
    fun e he => make_video_error_mem env i a o fps e he, ?_⟩
  obtain ⟨fs, dur, aOk, iOk, waOk, wrOk⟩ := env
  cases dur with
  | none =>
    cases hfi : fs i <;> cases hfa : fs a <;> cases aOk <;> cases iOk <;>
      cases waOk <;> cases wrOk <;>
      simp_all [make_video, tryBody, finallyCloses, PyErr.message,
        Event.isAudioOpenCall, Event.isImageClipCall, Event.isWithAudioCall,
        Event.isWrite, List.filter_append]
  | some d =>
    rcases le_or_lt d 0 with hd | hd
    · cases hfi : fs i <;> cases hfa : fs a <;> cases aOk <;> cases iOk <;>
        cases waOk <;> cases wrOk <;>
        simp_all [make_video, tryBody, finallyCloses, PyErr.message,
          Event.isAudioOpenCall, Event.isImageClipCall, Event.isWithAudioCall,
          Event.isWrite, List.filter_append]
    · have hd' : ¬ d ≤ 0 := not_le.mpr hd
      cases hfi : fs i <;> cases hfa : fs a <;> cases aOk <;> cases iOk <;>
        cases waOk <;> cases wrOk <;>
        simp_all [make_video, tryBody, finallyCloses, PyErr.message,
          Event.isAudioOpenCall, Event.isImageClipCall, Event.isWithAudioCall,
          Event.isWrite, List.filter_append, if_neg hd']

/-- Witness for C5: with `with_audio` failing, `make_video` re-raises the
body's error and printed the error message and the traceback. -/
theorem claim_C5_witness :
    Event.print "❌ Error creating video: with_audio failed" ∈
      (make_video envWithAudioFails "img.png" "aud.mp3" "out.mp4" 24).2 ∧
    Event.printTraceback ∈
      (make_video envWithAudioFails "img.png" "aud.mp3" "out.mp4" 24).2 :=
  (claim_C5 envWithAudioFails "img.png" "aud.mp3" "out.mp4" 24).2.1
    (.LibraryError "with_audio failed") rfl

/-- C7: on every successful run, the write/mux step occurred exactly once,
with the caller's output path, the caller's frame rate, video codec
"libx264" (H.264), audio codec "aac", and the temp audio path computed for
the output path. -/
theorem claim_C7 (env : Env) (i a o : String) (fps : ℤ)
    (hok : (make_video env i a o fps).1 = .ok ()) :
    (make_video env i a o fps).2.filter Event.isWrite =
      [Event.libWriteVideofile o fps "libx264" "aac" "bar"
        (temp_audiofile_path o)] := by
  obtain ⟨fs, dur, aOk, iOk, waOk, wrOk⟩ := env
  cases dur with
  | none =>
    cases hfi : fs i <;> cases hfa : fs a <;> cases aOk <;> cases iOk <;>
      cases waOk <;> cases wrOk <;>
      simp_all [make_video, tryBody, finallyCloses, PyErr.message,
        Event.isWrite, List.filter_append]
  | some d =>
    rcases le_or_lt d 0 with hd | hd
    · cases hfi : fs i <;> cases hfa : fs a <;> cases aOk <;> cases iOk <;>
        cases waOk <;> cases wrOk <;>
        simp_all [make_video, tryBody, finallyCloses, PyErr.message,
          Event.isWrite, List.filter_append]
    · have hd' : ¬ d ≤ 0 := not_le.mpr hd
      cases hfi : fs i <;> cases hfa : fs a <;> cases aOk <;> cases iOk <;>
        cases waOk <;> cases wrOk <;>
        simp_all [make_video, tryBody, finallyCloses, PyErr.message,
          Event.isWrite, List.filter_append, if_neg hd']

/-- Witness for C7: the successful run in the all-succeeding environment
performed exactly one write, with output path "d/out.mp4", fps 24, codecs
libx264/aac, and temp audio path "d/temp_processing_audio.mp4". -/
theorem claim_C7_witness :
    (make_video envAllOk "img.png" "aud.mp3" "d/out.mp4" 24).2.filter
        Event.isWrite =
      [Event.libWriteVideofile "d/out.mp4" 24 "libx264" "aac" "bar"
        (temp_audiofile_path "d/out.mp4")] :=
  claim_C7 envAllOk "img.png" "aud.mp3" "d/out.mp4" 24 rfl

set_option maxHeartbeats 1600000 in
/-- C8: every write/mux call made during any invocation passes, as the
encoder's temp audio file location, exactly the path obtained by joining
the directory component of the requested output path with the fixed temp
file name. -/
theorem claim_C8 (env : Env) (i a o : String) (fps : ℤ)
    (out : String) (fp : ℤ) (c ac lg tmp : String)
    (hw : Event.libWriteVideofile out fp c ac lg tmp ∈
      (make_video env i a o fps).2) :
    tmp = os_path_join (os_path_dirname o) "temp_processing_audio.mp4" := by
  obtain ⟨fs, dur, aOk, iOk, waOk, wrOk⟩ := env
  cases dur with
  | none =>
    cases hfi : fs i <;> cases hfa : fs a <;> cases aOk <;> cases iOk <;>
      cases waOk <;> cases wrOk <;>
      simp_all [make_video, tryBody, finallyCloses, PyErr.message,
        temp_audiofile_path]
  | some d =>
    rcases le_or_lt d 0 with hd | hd
    · cases hfi : fs i <;> cases hfa : fs a <;> cases aOk <;> cases iOk <;>
        cases waOk <;> cases wrOk <;>
        simp_all [make_video, tryBody, finallyCloses, PyErr.message,
          temp_audiofile_path]
    · have hd' : ¬ d ≤ 0 := not_le.mpr hd
      cases hfi : fs i <;> cases hfa : fs a <;> cases aOk <;> cases iOk <;>
        cases waOk <;> cases wrOk <;>
        simp_all [make_video, tryBody, finallyCloses, PyErr.message,
          temp_audiofile_path, if_neg hd']

/-- Witness for C8: the successful run with output path "d/out.mp4" made
a write call whose temp audio location is "d/temp_processing_audio.mp4",
the join of the output directory "d" with the fixed temp name. -/
theorem claim_C8_witness :
    Event.libWriteVideofile "d/out.mp4" 24 "libx264" "aac" "bar"
        "d/temp_processing_audio.mp4" ∈
      (make_video envAllOk "img.png" "aud.mp3" "d/out.mp4" 24).2 ∧
    "d/temp_processing_audio.mp4" =
      os_path_join (os_path_dirname "d/out.mp4") "temp_processing_audio.mp4" :=
  ⟨by decide,
   claim_C8 envAllOk "img.png" "aud.mp3" "d/out.mp4" 24 "d/out.mp4" 24
     "libx264" "aac" "bar" "d/temp_processing_audio.mp4" (by decide)⟩

set_option maxHeartbeats 1600000 in
/-- C9: the frame-rate parameter defaults to 24; `make_video` never
validates it — for every integer fps, including zero and negative values,
the outcome is identical to the outcome at any other fps (no positivity
check can fail), and any write call passes the caller's fps unchanged to
the encoder. -/
theorem claim_C9 :
    (∀ (env : Env) (i a o : String),
      make_video env i a o = make_video env i a o 24) ∧
    (∀ (env : Env) (i a o : String) (fps : ℤ),
      (make_video env i a o fps).1 = (make_video env i a o 24).1) ∧
    (∀ (env : Env) (i a o : String) (fps : ℤ) (out : String) (fp : ℤ)
      (c ac lg tmp : String),
      Event.libWriteVideofile out fp c ac lg tmp ∈
        (make_video env i a o fps).2 → fp = fps) := by
  refine ⟨fun env i a o => rfl, ?_, ?_⟩
  · intro env i a o fps
    obtain ⟨fs, dur, aOk, iOk, waOk, wrOk⟩ := env
    cases dur with
    | none =>
      cases hfi : fs i <;> cases hfa : fs a <;> cases aOk <;> cases iOk <;>
        cases waOk <;> cases wrOk <;>
        simp_all [make_video, tryBody, finallyCloses, PyErr.message]
    | some d =>
      rcases le_or_lt d 0 with hd | hd
      · cases hfi : fs i <;> cases hfa : fs a <;> cases aOk <;> cases iOk <;>
          cases waOk <;> cases wrOk <;>
          simp_all [make_video, tryBody, finallyCloses, PyErr.message]
      · have hd' : ¬ d ≤ 0 := not_le.mpr hd
        cases hfi : fs i <;> cases hfa : fs a <;> cases aOk <;> cases iOk <;>
          cases waOk <;> cases wrOk <;>
          simp_all [make_video, tryBody, finallyCloses, PyErr.message,
            if_neg hd']
  · intro env i a o fps out fp c ac lg tmp hw
    obtain ⟨fs, dur, aOk, iOk, waOk, wrOk⟩ := env
    cases dur with
    | none =>
      cases hfi : fs i <;> cases hfa : fs a <;> cases aOk <;> cases iOk <;>
        cases waOk <;> cases wrOk <;>
        simp_all [make_video, tryBody, finallyCloses, PyErr.message]
    | some d =>
      rcases le_or_lt d 0 with hd | hd
      · cases hfi : fs i <;> cases hfa : fs a <;> cases aOk <;> cases iOk <;>
          cases waOk <;> cases wrOk <;>
          simp_all [make_video, tryBody, finallyCloses, PyErr.message]
      · have hd' : ¬ d ≤ 0 := not_le.mpr hd
        cases hfi : fs i <;> cases hfa : fs a <;> cases aOk <;> cases iOk <;>
          cases waOk <;> cases wrOk <;>
          simp_all [make_video, tryBody, finallyCloses, PyErr.message,
            if_neg hd']

/-- Witness for C9: a run invoked with fps `-3` reaches the encoder (the
write call is in the trace with fps field `-3`), and instantiating the
pass-through conjunct at that call yields `-3 = -3`. -/
theorem claim_C9_witness :
    Event.libWriteVideofile "out.mp4" (-3) "libx264" "aac" "bar"
        "temp_processing_audio.mp4" ∈
      (make_video envAllOk "img.png" "aud.mp3" "out.mp4" (-3)).2 ∧
    (-3 : ℤ) = -3 :=
  ⟨by decide,
   claim_C9.2.2 envAllOk "img.png" "aud.mp3" "out.mp4" (-3) "out.mp4" (-3)
     "libx264" "aac" "bar" "temp_processing_audio.mp4" (by decide)⟩

/-- C10: the temporary audio file name is the fixed string
"temp_processing_audio.mp4": every computed temp path is some prefix
(the directory part) followed by that fixed name, and when the output
path contains no `'/'` (no directory component) the computed temp path is
the bare relative filename itself. -/
theorem claim_C10 :
    (∀ o : String, ∃ pre : String,
      temp_audiofile_path o = pre ++ "temp_processing_audio.mp4") ∧
    (∀ o : String, '/' ∉ o.data →
      temp_audiofile_path o = "temp_processing_audio.mp4") := by
  constructor
  · intro o
    unfold temp_audiofile_path os_path_join
    rw [if_neg (by decide)]
    by_cases h : os_path_dirname o = "" ∨ endsWithSlash (os_path_dirname o) = true
    · rw [if_pos h]
      exact ⟨os_path_dirname o, rfl⟩
    · rw [if_neg h]
      exact ⟨os_path_dirname o ++ "/", rfl⟩
  · intro o ho
    have hdrop : o.data.reverse.dropWhile (fun c => c ≠ '/') = [] := by
      rw [List.dropWhile_eq_nil_iff]
      intro x hx
      simp only [List.mem_reverse] at hx
      simp only [ne_eq, decide_not, Bool.not_eq_true', decide_eq_false_iff_not]
      intro hc
      exact ho (hc ▸ hx)
    have hdir : os_path_dirname o = "" := by
      unfold os_path_dirname
      rw [hdrop]
      simp
    unfold temp_audiofile_path
    rw [hdir]
    decide

/-- Witness for C10: with output path "out.mp4" (no directory component),
the computed temp path is the bare name "temp_processing_audio.mp4". -/
theorem claim_C10_witness :
    temp_audiofile_path "out.mp4" = "temp_processing_audio.mp4" :=
  claim_C10.2 "out.mp4" (by decide)

end CreateVideo
